import Mathlib

/-!
A Lean model of `rl_coach/architectures/mxnet_components/heads/q_head.py`:
the `QHead` network head and its paired `QHeadLoss`, embedded shallowly.
Tensors are rational matrices (`List (List ℚ)`), with the mini-batch along
axis 0.  The surrounding framework pieces that the file imports (the loss
classes of `mxnet.gluon.loss`, `nn.Dense`, and the `head.py` base module)
are not part of the source tree and are modelled from the specification.
-/

/-- Modelled from the spec: the action-space classes of `rl_coach.spaces`
that `QHead.__init__` inspects (`BoxActionSpace`, and `DiscreteActionSpace`
carrying its list of actions), plus any other action-space class. -/
inductive ActionSpace where
  | box : ActionSpace
  | discrete : List ℤ → ActionSpace
  | other : String → ActionSpace
  deriving DecidableEq

/-- Modelled from the spec: `rl_coach.spaces.SpacesDefinition`, of which only
the `action` member is read by this file. -/
structure SpacesDefinition where
  action : ActionSpace
  deriving DecidableEq

/-- Modelled from the spec: the loss classes of `mxnet.gluon.loss` that the
head recognises (`L2Loss` for mean squared error and `HuberLoss`), plus any
other loss class a caller might pass. -/
inductive LossType where
  | L2Loss : LossType
  | HuberLoss : LossType
  | other : String → LossType
  deriving DecidableEq

/-- A 2-D tensor as a list of rows. -/
abbrev Mat := List (List ℚ)

/-- Arithmetic mean of a list of rationals (0 on the empty list, since
division by zero is 0 in `ℚ`). -/
def listMean (l : List ℚ) : ℚ := l.sum / l.length

/-- Scale every entry of a matrix by a constant. -/
def scaleMat (c : ℚ) (m : Mat) : Mat := m.map (fun row => row.map (fun v => c * v))

/-- Mean over all axes of a 2-D tensor except `batch_axis`, as in mxnet
`F.mean(loss, axis=self._batch_axis, exclude=True)`: one value remains per
index along the batch axis.  A 2-D tensor only has axes 0 and 1. -/
def meanExcludeAxis (batch_axis : ℕ) (m : Mat) : List ℚ :=
  if batch_axis = 0 then m.map listMean else m.transpose.map listMean

/-- Modelled from the spec: the elementwise square error computed by mxnet
`L2Loss`, `F.square(label - pred)`. -/
def l2Elementwise (pred target : Mat) : Mat :=
  List.zipWith (fun pr tg => List.zipWith (fun p t => (t - p) ^ 2) pr tg) pred target

/-- Modelled from the spec: mxnet `L2Loss.hybrid_forward` with the default
`sample_weight`: square error, weighted by `weight / 2` (the halved squared
error convention), then averaged over all non-batch axes. -/
def L2LossFn (weight : ℚ) (batch_axis : ℕ) (pred target : Mat) : List ℚ :=
  meanExcludeAxis batch_axis (scaleMat (weight / 2) (l2Elementwise pred target))

/-- Modelled from the spec: the Huber error on one residual with the mxnet
default threshold `rho = 1`: quadratic near zero, linear for large errors. -/
def huberElt (d : ℚ) : ℚ := if 1 < |d| then |d| - 1 / 2 else |d| ^ 2 / 2

/-- Modelled from the spec: the elementwise Huber error of mxnet
`HuberLoss`, applied to `label - pred`. -/
def huberElementwise (pred target : Mat) : Mat :=
  List.zipWith (fun pr tg => List.zipWith (fun p t => huberElt (t - p)) pr tg) pred target

/-- Modelled from the spec: mxnet `HuberLoss.hybrid_forward` with the default
`sample_weight` and threshold: Huber error weighted by `weight`, averaged
over all non-batch axes. -/
def HuberLossFn (weight : ℚ) (batch_axis : ℕ) (pred target : Mat) : List ℚ :=
  meanExcludeAxis batch_axis (scaleMat weight (huberElementwise pred target))

/-- Per-sample loss computed by an instance `loss_type(weight=w,
batch_axis=b)`.  Loss classes other than the two recognised ones never reach
a call site in this file, so their behaviour is left trivial. -/
def lossTypeFn : LossType → ℚ → ℕ → Mat → Mat → List ℚ
  | .L2Loss => L2LossFn
  | .HuberLoss => HuberLossFn
  | .other _ => fun _ _ _ _ => []

/-- Modelled from the spec: `LossInputSchema` from the `head.py` base module,
naming the tensors a head loss consumes. -/
structure LossInputSchema where
  head_outputs : List String
  agent_inputs : List String
  targets : List String
  deriving DecidableEq

/-- Modelled from the spec: the designated loss tag `LOSS_OUT_TYPE_LOSS`
exported by the `head.py` base module. -/
def LOSS_OUT_TYPE_LOSS : String := "loss"

/-- State left by `QHeadLoss.__init__`: `weight` and `batch_axis` are stored
by the `HeadLoss` base class, and `self.loss_fn = loss_type(weight=weight,
batch_axis=batch_axis)` is recorded here by the class tag of `loss_type`
together with the two configuration values it was bound with. -/
structure QHeadLoss where
  loss_type : LossType
  weight : ℚ
  batch_axis : ℕ

/-- Constructor of `QHeadLoss` (Python defaults: `loss_type=L2Loss`,
`weight=1`, `batch_axis=0` are supplied at call sites). -/
def QHeadLoss.make (loss_type : LossType) (weight : ℚ) (batch_axis : ℕ) : QHeadLoss :=
  ⟨loss_type, weight, batch_axis⟩

/-- Calling `self.loss_fn`: the elementwise loss instance bound at
construction, as a function from `pred` and `target` to per-sample losses. -/
def QHeadLoss.loss_fn (l : QHeadLoss) : Mat → Mat → List ℚ :=
  lossTypeFn l.loss_type l.weight l.batch_axis

/-- Property `QHeadLoss.input_schema` from the source. -/
def QHeadLoss.input_schema (_ : QHeadLoss) : LossInputSchema :=
  ⟨["pred"], [], ["target"]⟩

/-- Method `QHeadLoss.loss_forward` from the source:
`loss = self.loss_fn(pred, target).mean()` followed by
`return [(loss, LOSS_OUT_TYPE_LOSS)]`. -/
def QHeadLoss.loss_forward (l : QHeadLoss) (pred target : Mat) : List (ℚ × String) :=
  [(listMean (l.loss_fn pred target), LOSS_OUT_TYPE_LOSS)]

/-- Modelled from the spec: `mxnet.gluon.nn.Dense(units)` after its deferred
shape inference, an affine map given by a weight function and a bias
function over unit and input-feature indices. -/
structure DenseLayer where
  units : ℕ
  weight : ℕ → ℕ → ℚ
  bias : ℕ → ℚ

/-- Forward pass of the dense layer: every sample row is mapped to `units`
outputs, output `j` being `bias j` plus the weighted sum of the row. -/
def DenseLayer.forward (d : DenseLayer) (x : Mat) : Mat :=
  x.map (fun row =>
    (List.range d.units).map (fun j =>
      d.bias j + (row.enum.map (fun iv => d.weight j iv.1 * iv.2)).sum))

/-- Modelled from the spec: `AgentParameters` is received and never read. -/
def AgentParameters := Unit

/-- Ways `QHead.__init__` can fail: the `loss_type` assertion on line 84, or
the read of the never-assigned `self.num_actions` on line 88. -/
inductive InitError where
  | assertionError : InitError
  | attributeError : InitError
  deriving DecidableEq

/-- State a completed `QHead.__init__` leaves behind (the fields the claims
read; `return_type = QActionStateValue` carries no data and is omitted). -/
structure QHead where
  num_actions : ℕ
  loss_weight : ℚ
  loss_type : LossType
  dense : DenseLayer

/-- Value of `self.num_actions` after the two `isinstance` branches of
`QHead.__init__`: `none` when the action space is neither recognised kind,
since then neither branch assigns the attribute. -/
def numActionsOf : ActionSpace → Option ℕ
  | .box => some 1
  | .discrete actions => some actions.length
  | .other _ => none

/-- Method `QHead.__init__` from the source.  The parameters the source
accepts but never reads are kept; `w` and `b` stand for the dense-layer
parameters the framework materialises on first use.  Effects happen in
source order: the `isinstance` branches, then the `loss_type` assertion
(line 84), then `nn.Dense(units=self.num_actions)` (line 88), which raises
`AttributeError` when `num_actions` was never assigned. -/
def QHead.init (agent_parameters : AgentParameters) (spaces : SpacesDefinition)
    (network_name : String) (head_type_idx : ℕ) (loss_weight : ℚ) (is_local : Bool)
    (activation_function : String) (dense_layer : Unit) (loss_type : LossType)
    (w : ℕ → ℕ → ℚ) (b : ℕ → ℚ) : Except InitError QHead :=
  if loss_type = .L2Loss ∨ loss_type = .HuberLoss then
    match numActionsOf spaces.action with
    | some n => .ok ⟨n, loss_weight, loss_type, ⟨n, w, b⟩⟩
    | none => .error .attributeError
  else .error .assertionError

/-- Method `QHead.loss` from the source:
`return QHeadLoss(loss_type=self.loss_type, weight=self.loss_weight)` with
the constructor default `batch_axis=0`. -/
def QHead.loss (h : QHead) : QHeadLoss := QHeadLoss.make h.loss_type h.loss_weight 0

/-- Method `QHead.hybrid_forward` from the source: `return self.dense(x)`. -/
def QHead.hybrid_forward (h : QHead) (x : Mat) : Mat := h.dense.forward x

/-- Stated from the words of the spec, for comparison with the source path:
the elementwise loss value of one prediction and one target under the
configured loss kind and weight. -/
def eltLossSpec : LossType → ℚ → ℚ → ℚ → ℚ
  | .L2Loss, w, p, t => w / 2 * (p - t) ^ 2
  | .HuberLoss, w, p, t => w * huberElt (p - t)
  | .other _, _, _, _ => 0

/-- Stated from the words of the spec: apply the configured elementwise
loss, average over all non-batch entries of each sample, then average again
across the batch to a single scalar. -/
def specLossScalar (lt : LossType) (w : ℚ) (pred target : Mat) : ℚ :=
  listMean (List.zipWith (fun pr tg => listMean (List.zipWith (eltLossSpec lt w) pr tg))
    pred target)

/-- Stated from the words of the spec: the forward pass as a pure affine
transform of each sample row, with no activation function applied. -/
def affineSpec (units : ℕ) (w : ℕ → ℕ → ℚ) (b : ℕ → ℚ) (x : Mat) : Mat :=
  x.map (fun row =>
    (List.range units).map (fun j => b j + (row.enum.map (fun iv => w j iv.1 * iv.2)).sum))

/-- Concrete zero dense-layer parameters used by witnesses. -/
def zeroW : ℕ → ℕ → ℚ := fun _ _ => 0

/-- Concrete zero bias used by witnesses. -/
def zeroB : ℕ → ℚ := fun _ => 0

/-- Concrete head used by witnesses. -/
def exampleHead : QHead := ⟨3, 1, LossType.L2Loss, ⟨3, zeroW, zeroB⟩⟩

/-- Mapping over a `zipWith` fuses into the binary function. -/
theorem zipWithMap {α β γ δ : Type} (g : γ → δ) (f : α → β → γ) :
    ∀ (l : List α) (l' : List β),
      (List.zipWith f l l').map g = List.zipWith (fun a b => g (f a b)) l l'
  | [], _ => by simp
  | _ :: _, [] => by simp
  | a :: as, b :: bs => by
    simp only [List.zipWith_cons_cons, List.map_cons, List.cons.injEq, true_and]
    exact zipWithMap g f as bs

/-- Pointwise equal binary functions give equal `zipWith` results. -/
theorem zipWithExt {α β γ : Type} {f g : α → β → γ} (h : ∀ a b, f a b = g a b) :
    ∀ (l : List α) (l' : List β), List.zipWith f l l' = List.zipWith g l l'
  | [], _ => rfl
  | _ :: _, [] => rfl
  | a :: as, b :: bs => by
    simp only [List.zipWith_cons_cons, List.cons.injEq]
    exact ⟨h a b, zipWithExt h as bs⟩

/-- The Huber error depends only on the magnitude of the residual. -/
theorem huberElt_neg (d : ℚ) : huberElt (-d) = huberElt d := by
  simp [huberElt, abs_neg]

/-- With the batch on axis 0, `L2Loss` yields, per sample, the mean of the
per-entry weighted square errors. -/
theorem L2LossFn_rows (w : ℚ) (pred target : Mat) :
    L2LossFn w 0 pred target
      = List.zipWith
          (fun pr tg => listMean (List.zipWith (eltLossSpec LossType.L2Loss w) pr tg))
          pred target := by
  unfold L2LossFn meanExcludeAxis scaleMat l2Elementwise
  rw [if_pos rfl, List.map_map, zipWithMap]
  refine zipWithExt (fun pr tg => ?_) pred target
  simp only [Function.comp_apply]
  rw [zipWithMap]
  congr 1
  refine zipWithExt (fun p t => ?_) pr tg
  simp only [eltLossSpec]
  ring

/-- With the batch on axis 0, `HuberLoss` yields, per sample, the mean of the
per-entry weighted Huber errors. -/
theorem HuberLossFn_rows (w : ℚ) (pred target : Mat) :
    HuberLossFn w 0 pred target
      = List.zipWith
          (fun pr tg => listMean (List.zipWith (eltLossSpec LossType.HuberLoss w) pr tg))
          pred target := by
  unfold HuberLossFn meanExcludeAxis scaleMat huberElementwise
  rw [if_pos rfl, List.map_map, zipWithMap]
  refine zipWithExt (fun pr tg => ?_) pred target
  simp only [Function.comp_apply]
  rw [zipWithMap]
  congr 1
  refine zipWithExt (fun p t => ?_) pr tg
  simp only [eltLossSpec]
  rw [show t - p = -(p - t) by ring, huberElt_neg]

/-- Claim C2: for either supported loss kind with the default batch axis 0,
the loss computation applies the configured elementwise loss, averages over
all non-batch entries of each sample, then averages across the batch,
returning one scalar (paired with the loss tag), not a per-sample vector. -/
theorem C2_loss_reduction (lt : LossType) (w : ℚ) (pred target : Mat)
    (hlt : lt = LossType.L2Loss ∨ lt = LossType.HuberLoss) :
    (QHeadLoss.make lt w 0).loss_forward pred target
      = [(specLossScalar lt w pred target, LOSS_OUT_TYPE_LOSS)] := by
  rcases hlt with h | h <;> subst h
  · show [(listMean (L2LossFn w 0 pred target), _)] = _
    rw [L2LossFn_rows]
    rfl
  · show [(listMean (HuberLossFn w 0 pred target), _)] = _
    rw [HuberLossFn_rows]
    rfl

/-- Witness for C2 at a concrete Huber configuration and input. -/
theorem C2_loss_reduction_witness :
    (QHeadLoss.make LossType.HuberLoss 1 0).loss_forward [[3, 0]] [[1, 0]]
      = [(specLossScalar LossType.HuberLoss 1 [[3, 0]] [[1, 0]], LOSS_OUT_TYPE_LOSS)] :=
  C2_loss_reduction LossType.HuberLoss 1 [[3, 0]] [[1, 0]] (Or.inr rfl)

/-- Claim C4: with mean squared error, weight 1 and batch axis 0, the loss of
`pred = [[1.0]]` against `target = [[0.0]]` is the scalar `0.5`, following
the halved squared error convention. -/
theorem C4_mse_half :
    (QHeadLoss.make LossType.L2Loss 1 0).loss_forward [[1]] [[0]]
      = [((1 : ℚ) / 2, LOSS_OUT_TYPE_LOSS)] := by
  simp only [QHeadLoss.loss_forward, QHeadLoss.loss_fn, QHeadLoss.make, lossTypeFn,
    L2LossFn, meanExcludeAxis, scaleMat, l2Elementwise, listMean, if_pos,
    List.zipWith_cons_cons, List.zipWith_nil_right, List.map_cons, List.map_nil,
    List.sum_cons, List.sum_nil, List.length_cons, List.length_nil]
  norm_num

/-- Claim C6: `input_schema` reports head outputs `["pred"]`, agent inputs
`[]` and targets `["target"]`, whatever the configuration. -/
theorem C6_input_schema (lt : LossType) (w : ℚ) (ba : ℕ) :
    (QHeadLoss.make lt w ba).input_schema
      = LossInputSchema.mk ["pred"] [] ["target"] := rfl

/-- Claim C7: whatever the configuration and inputs, the loss computation
returns exactly one pair whose second component is the loss tag. -/
theorem C7_loss_tag (lt : LossType) (w : ℚ) (ba : ℕ) (pred target : Mat) :
    ∃ v : ℚ, (QHeadLoss.make lt w ba).loss_forward pred target
      = [(v, LOSS_OUT_TYPE_LOSS)] := ⟨_, rfl⟩

/-- Claim C5: every call of the loss factory yields a loss object carrying
the head's `loss_type` and `loss_weight`, and any two objects obtained from
the same head compute identical results on identical inputs. -/
theorem C5_loss_factory (h : QHead) (l1 l2 : QHeadLoss)
    (h1 : l1 = h.loss) (h2 : l2 = h.loss) (pred target : Mat) :
    l1.loss_type = h.loss_type ∧ l1.weight = h.loss_weight ∧
      l1.loss_forward pred target = l2.loss_forward pred target := by
  subst h1
  subst h2
  exact ⟨rfl, rfl, rfl⟩

/-- Witness for C5 on a concrete head and input. -/
theorem C5_loss_factory_witness :
    (exampleHead.loss).loss_type = exampleHead.loss_type ∧
      (exampleHead.loss).weight = exampleHead.loss_weight ∧
      (exampleHead.loss).loss_forward [[1, 2, 3]] [[0, 2, 4]]
        = (exampleHead.loss).loss_forward [[1, 2, 3]] [[0, 2, 4]] :=
  C5_loss_factory exampleHead exampleHead.loss exampleHead.loss rfl rfl
    [[1, 2, 3]] [[0, 2, 4]]

/-- Claim C10: every loss object produced by the head factory has batch axis
0, the factory passing only the loss kind and the weight. -/
theorem C10_batch_axis (h : QHead) :
    h.loss = QHeadLoss.make h.loss_type h.loss_weight 0 ∧ (h.loss).batch_axis = 0 :=
  ⟨rfl, rfl⟩

/-- Claim C1: over a box action space `num_actions` is 1, over a discrete
action space with `k` actions it is `k`, and the forward pass on an input of
shape `[B, D]` with `B ≥ 1`, `D ≥ 1` has shape `[B, num_actions]`. -/
theorem C1_num_actions_shape (ap : AgentParameters) (sp : SpacesDefinition)
    (netname : String) (idx : ℕ) (lw : ℚ) (il : Bool) (act : String) (dl : Unit)
    (lt : LossType) (w : ℕ → ℕ → ℚ) (b : ℕ → ℚ) (h : QHead)
    (hok : QHead.init ap sp netname idx lw il act dl lt w b = Except.ok h) :
    (sp.action = ActionSpace.box → h.num_actions = 1) ∧
      (∀ actions, sp.action = ActionSpace.discrete actions →
        h.num_actions = actions.length) ∧
      (∀ (x : Mat) (B D : ℕ), 1 ≤ B → 1 ≤ D → x.length = B →
        (∀ row ∈ x, row.length = D) →
        (h.hybrid_forward x).length = B ∧
          ∀ row ∈ h.hybrid_forward x, row.length = h.num_actions) := by
  unfold QHead.init at hok
  split at hok
  · rcases hna : numActionsOf sp.action with _ | n <;> rw [hna] at hok
    · simp at hok
    · injection hok with hX
      subst hX
      refine ⟨?_, ?_, ?_⟩
      · intro hbox
        rw [hbox] at hna
        simp only [numActionsOf, Option.some.injEq] at hna
        exact hna.symm
      · intro actions hdisc
        rw [hdisc] at hna
        simp only [numActionsOf, Option.some.injEq] at hna
        exact hna.symm
      · intro x B D hB hD hxlen hrow
        constructor
        · simpa [QHead.hybrid_forward, DenseLayer.forward] using hxlen
        · intro row hmem
          simp only [QHead.hybrid_forward, DenseLayer.forward, List.mem_map] at hmem
          obtain ⟨r, hr, rfl⟩ := hmem
          simp
  · simp at hok

/-- Concrete head used by the C1 witness. -/
def discHead : QHead := ⟨3, 1, LossType.L2Loss, ⟨3, zeroW, zeroB⟩⟩

/-- Witness for C1 over a discrete action space with three actions. -/
theorem C1_num_actions_shape_witness :
    QHead.init () ⟨ActionSpace.discrete [0, 1, 2]⟩ "net" 0 1 true "relu" ()
        LossType.L2Loss zeroW zeroB = Except.ok discHead ∧
      discHead.num_actions = 3 ∧
      (discHead.hybrid_forward [[1, 2]]).length = 1 ∧
      (discHead.hybrid_forward [[1, 2]]).map List.length = [3] := by
  have hmain := C1_num_actions_shape () ⟨ActionSpace.discrete [0, 1, 2]⟩ "net" 0 1
    true "relu" () LossType.L2Loss zeroW zeroB discHead rfl
  refine ⟨rfl, ?_, ?_, ?_⟩
  · simpa using hmain.2.1 [0, 1, 2] rfl
  · exact (hmain.2.2 [[1, 2]] 1 2 (by decide) (by decide) rfl (by simp)).1
  · simp [discHead, QHead.hybrid_forward, DenseLayer.forward]

/-- Claim C3: construction raises the assertion error exactly when
`loss_type` is neither `L2Loss` nor `HuberLoss`; when it is one of the two,
the check passes and the value is stored unchanged in the head. -/
theorem C3_loss_type_assertion (ap : AgentParameters) (sp : SpacesDefinition)
    (netname : String) (idx : ℕ) (lw : ℚ) (il : Bool) (act : String) (dl : Unit)
    (lt : LossType) (w : ℕ → ℕ → ℚ) (b : ℕ → ℚ) :
    (QHead.init ap sp netname idx lw il act dl lt w b
        = Except.error InitError.assertionError
      ↔ ¬(lt = LossType.L2Loss ∨ lt = LossType.HuberLoss)) ∧
      ∀ h, QHead.init ap sp netname idx lw il act dl lt w b = Except.ok h →
        h.loss_type = lt := by
  constructor
  · constructor
    · intro he hval
      unfold QHead.init at he
      rw [if_pos hval] at he
      rcases hna : numActionsOf sp.action with _ | n <;> rw [hna] at he <;> simp at he
    · intro hnv
      unfold QHead.init
      rw [if_neg hnv]
  · intro h hok
    unfold QHead.init at hok
    split at hok
    · rcases hna : numActionsOf sp.action with _ | n <;> rw [hna] at hok
      · simp at hok
      · injection hok with hX
        subst hX
        rfl
    · simp at hok

/-- Concrete head used by the C3 witness. -/
def huberHead : QHead := ⟨1, 1, LossType.HuberLoss, ⟨1, zeroW, zeroB⟩⟩

/-- Witness for C3: a third loss kind is rejected with the assertion error,
and a Huber configuration passes the check and is stored unchanged. -/
theorem C3_loss_type_assertion_witness :
    QHead.init () ⟨ActionSpace.box⟩ "net" 0 1 true "relu" () (LossType.other "nll")
        zeroW zeroB = Except.error InitError.assertionError ∧
      QHead.init () ⟨ActionSpace.box⟩ "net" 0 1 true "relu" () LossType.HuberLoss
        zeroW zeroB = Except.ok huberHead ∧
      huberHead.loss_type = LossType.HuberLoss :=
  ⟨(C3_loss_type_assertion () ⟨ActionSpace.box⟩ "net" 0 1 true "relu" ()
      (LossType.other "nll") zeroW zeroB).1.mpr (by simp), rfl,
    (C3_loss_type_assertion () ⟨ActionSpace.box⟩ "net" 0 1 true "relu" ()
      LossType.HuberLoss zeroW zeroB).2 huberHead rfl⟩

/-- Claim C8: the forward pass is exactly the affine transform by the dense
layer, with no activation applied, and the `activation_function` argument
has no effect on it. -/
theorem C8_no_activation (ap : AgentParameters) (sp : SpacesDefinition)
    (netname : String) (idx : ℕ) (lw : ℚ) (il : Bool) (act1 act2 : String)
    (dl : Unit) (lt : LossType) (w : ℕ → ℕ → ℚ) (b : ℕ → ℚ) (h1 h2 : QHead)
    (hok1 : QHead.init ap sp netname idx lw il act1 dl lt w b = Except.ok h1)
    (hok2 : QHead.init ap sp netname idx lw il act2 dl lt w b = Except.ok h2)
    (x : Mat) :
    h1.hybrid_forward x = affineSpec h1.num_actions w b x ∧
      h1.hybrid_forward x = h2.hybrid_forward x := by
  unfold QHead.init at hok1 hok2
  by_cases hval : lt = LossType.L2Loss ∨ lt = LossType.HuberLoss
  · rw [if_pos hval] at hok1 hok2
    rcases hna : numActionsOf sp.action with _ | n <;> rw [hna] at hok1 hok2
    · simp at hok1
    · injection hok1 with hX1
      injection hok2 with hX2
      subst hX1
      subst hX2
      exact ⟨rfl, rfl⟩
  · rw [if_neg hval] at hok1
    simp at hok1

/-- Concrete head used by the C8 witness. -/
def boxHead : QHead := ⟨1, 1, LossType.L2Loss, ⟨1, zeroW, zeroB⟩⟩

/-- Witness for C8: two constructions differing only in the activation
string yield the same, purely affine, forward pass. -/
theorem C8_no_activation_witness :
    boxHead.hybrid_forward [[2]] = affineSpec boxHead.num_actions zeroW zeroB [[2]] ∧
      boxHead.hybrid_forward [[2]] = boxHead.hybrid_forward [[2]] :=
  C8_no_activation () ⟨ActionSpace.box⟩ "net" 0 1 true "relu" "tanh" ()
    LossType.L2Loss zeroW zeroB boxHead boxHead rfl rfl [[2]]

/-- Claim C9: on an action space of any other kind, construction never
completes; with a supported `loss_type` it fails at the dense-layer
allocation with the attribute error, not with the loss-type assertion. -/
theorem C9_unsupported_action (ap : AgentParameters) (sp : SpacesDefinition)
    (netname : String) (idx : ℕ) (lw : ℚ) (il : Bool) (act : String) (dl : Unit)
    (lt : LossType) (w : ℕ → ℕ → ℚ) (b : ℕ → ℚ) (name : String)
    (ha : sp.action = ActionSpace.other name) :
    (∀ h, QHead.init ap sp netname idx lw il act dl lt w b ≠ Except.ok h) ∧
      ((lt = LossType.L2Loss ∨ lt = LossType.HuberLoss) →
        QHead.init ap sp netname idx lw il act dl lt w b
          = Except.error InitError.attributeError) := by
  have hna : numActionsOf sp.action = none := by rw [ha]; rfl
  constructor
  · intro h
    unfold QHead.init
    by_cases hval : lt = LossType.L2Loss ∨ lt = LossType.HuberLoss
    · rw [if_pos hval, hna]
      simp
    · rw [if_neg hval]
      simp
  · intro hval
    unfold QHead.init
    rw [if_pos hval, hna]

/-- Witness for C9 at a concrete unsupported action space. -/
theorem C9_unsupported_action_witness :
    QHead.init () ⟨ActionSpace.other "tuple"⟩ "net" 0 1 true "relu" ()
        LossType.L2Loss zeroW zeroB = Except.error InitError.attributeError :=
  (C9_unsupported_action () ⟨ActionSpace.other "tuple"⟩ "net" 0 1 true "relu" ()
    LossType.L2Loss zeroW zeroB "tuple" rfl).2 (Or.inl rfl)
